import Mathlib

set_option autoImplicit false

/-!
Formal model of `src/modules/module-tunnel-sink-new.c` (a PulseAudio tunnel
sink module).  The module's own code — the render-thread loop `thread_func`,
the libpulse state callbacks `stream_state_callback` and
`context_state_callback`, the sink message handler `sink_process_msg_cb`, and
the module lifecycle `pa__init` / `pa__done` — is translated directly from the
C source.  Calls into libpulse / pulsecore (which are outside the file) are
modelled from the specification's description of their contracts; each such
definition carries a doc comment saying so.  External inputs that the loop
consumes (the writable-size query result, the render result, the write and
poll return codes) are supplied as per-iteration oracle inputs.
-/

/-- Remote stream lifecycle states, as in the specification's RemoteStream
state machine (Created, Corked, Running, Failed, Terminated). -/
inductive StreamState
  | created
  | corked
  | running
  | failed
  | terminated
deriving DecidableEq

/-- Modelled from the spec: a stream state is good when it is one of
Created, Corked, Running — not Failed and not Terminated. -/
def StreamState.isGood : StreamState → Bool
  | .created => true
  | .corked => true
  | .running => true
  | .failed => false
  | .terminated => false

/-- Modelled from the spec: uncorking transitions Corked to Running and is
the identity elsewhere. -/
def StreamState.uncork : StreamState → StreamState
  | .corked => .running
  | s => s

/-- Modelled from the spec: the render loop observes a null or absent stream
as not good, so the transmit gate closes when the stream slot is cleared. -/
def streamGoodOpt : Option StreamState → Bool
  | none => false
  | some s => s.isGood

/-- Modelled from the spec: the corked query on the stream handle; an absent
stream is never reported corked. -/
def pa_stream_is_corked : Option StreamState → Bool
  | some .corked => true
  | _ => false

/-- Local sink operating states. -/
inductive SinkState
  | init
  | idle
  | running
  | suspended
  | unlinked
deriving DecidableEq

/-- Modelled from the spec: the sink is in an opened or active operating
state when it is running or idle. -/
def PA_SINK_IS_OPENED : SinkState → Bool
  | .running => true
  | .idle => true
  | _ => false

/-- Modelled from the spec: the sink is linked when it is running, idle or
suspended; an unlinked sink is one that was never put or was removed. -/
def PA_SINK_IS_LINKED : SinkState → Bool
  | .running => true
  | .idle => true
  | .suspended => true
  | _ => false

/-- Remote connection lifecycle states, as read by context_state_callback. -/
inductive ContextState
  | unconnected
  | connecting
  | authorizing
  | settingName
  | ready
  | failed
  | terminated
deriving DecidableEq

/-- An audio buffer cell: a reference-counted memory block (identified by a
numeric id, absent when no block is held), a read offset and a length.
Mirrors the pa_memchunk field of struct userdata. -/
structure Memchunk where
  memblock : Option Nat
  index : Nat
  length : Nat
deriving DecidableEq

/-- The empty cell. -/
def Memchunk.empty : Memchunk := ⟨none, 0, 0⟩

/-- Resets a cell to the empty cell, as pa_memchunk_reset does. -/
def pa_memchunk_reset (_c : Memchunk) : Memchunk := Memchunk.empty

/-- The fields of struct userdata that the modelled code reads or writes:
the in-flight buffer cell, the connected flag, the stream handle (with its
state) or none when the slot is cleared, the sink's thread-side state, the
pending rewind request, the monotonic timestamp, and the context handle or
none when the slot is cleared. -/
structure Userdata where
  memchunk : Memchunk
  connected : Bool
  stream : Option StreamState
  sinkState : SinkState
  rewindRequested : Bool
  timestamp : Nat
  context : Option Unit
deriving DecidableEq

/-- Modelled from the spec: the host's rewind handling, invoked with zero
bytes rewound; the host manages the bookkeeping, the core only drains the
request flag. -/
def pa_sink_process_rewind (u : Userdata) : Userdata :=
  { u with rewindRequested := false }

/-- The render loop's transmit gate, exactly the condition of the branch at
lines 119-121 of the source: connected, stream state good, sink opened. -/
def gateB (u : Userdata) : Bool :=
  u.connected && streamGoodOpt u.stream && PA_SINK_IS_OPENED u.sinkState

/-- External inputs consumed by one loop iteration: the writable-size query
result, the block id and length that pa_sink_render would fill in, the
pa_stream_write return code, and the pa_rtpoll_run return code. -/
structure IterInput where
  writable : Nat
  renderBlock : Nat
  renderLen : Nat
  writeRet : Int
  pollRet : Int
deriving DecidableEq

/-- Observable events of one loop iteration: whether the transmit branch was
entered, whether the stream was uncorked, whether pa_sink_render was called
and with which requested byte count, whether pa_stream_write was called,
which memory block was unreferenced, and whether a write error was logged. -/
structure IterEvents where
  branchTaken : Bool
  didUncork : Bool
  didRender : Bool
  renderReq : Nat
  didWrite : Bool
  unrefed : Option Nat
  loggedWriteError : Bool
deriving DecidableEq

/-- The events of an iteration that skipped the transmit branch. -/
def noEvents : IterEvents := ⟨false, false, false, 0, false, none, false⟩

/-- The body of the transmit branch (source lines 122-153): if the stream is
still corked, uncork it and send nothing; otherwise query the writable size;
if positive, render a new cell only when none is held, then write the held
cell, unreference its block and reset the cell regardless of the write
outcome, logging on a nonzero write return code. -/
def transmitBranch (u : Userdata) (inp : IterInput) : Userdata × IterEvents :=
  if pa_stream_is_corked u.stream then
    ({ u with stream := u.stream.map StreamState.uncork },
     ⟨true, true, false, 0, false, none, false⟩)
  else if 0 < inp.writable then
    let didRender := decide (u.memchunk.length ≤ 0)
    let u2 := if u.memchunk.length ≤ 0
              then { u with memchunk := ⟨some inp.renderBlock, 0, inp.renderLen⟩ }
              else u
    let unrefed := u2.memchunk.memblock
    let u3 := { u2 with memchunk := pa_memchunk_reset u2.memchunk }
    (u3, ⟨true, false, didRender, if didRender then inp.writable else 0,
          true, unrefed, inp.writeRet != 0⟩)
  else
    (u, ⟨true, false, false, 0, false, none, false⟩)

/-- One iteration of the render loop before the poll (source lines 105-154):
drain a pending rewind request, then run the transmit branch exactly when the
gate holds. -/
def iterBody (u : Userdata) (inp : IterInput) : Userdata × IterEvents :=
  let u1 := if u.rewindRequested then pa_sink_process_rewind u else u
  if gateB u1 then transmitBranch u1 inp else (u1, noEvents)

/-- Messages on the render thread's inbound queue: the shutdown message or
any other message, tagged by its code. -/
inductive Msg
  | shutdown
  | other (code : Nat)
deriving DecidableEq

/-- Messages the render thread posts on the control thread's queue. -/
inductive CoreMsg
  | unloadModule
deriving DecidableEq

/-- Modelled from the spec: pa_asyncmsgq_wait_for blocks on the inbound
queue, discarding every message until the shutdown message arrives.  Returns
the discarded messages and whether the shutdown message was found (when the
supplied message list is exhausted without it, the thread is still blocked
and the flag is false). -/
def waitForShutdown : List Msg → List Msg × Bool
  | [] => ([], false)
  | m :: ms =>
      if m = Msg.shutdown then ([], true)
      else
        let r := waitForShutdown ms
        (m :: r.1, r.2)

/-- How a run of the render loop ended: still iterating when the supplied
inputs ran out; a clean stop after a zero poll result; or the failure path
after a negative poll result, carrying the messages discarded while waiting
for shutdown and whether the thread exited (the shutdown message arrived). -/
inductive Outcome
  | stillRunning
  | finished
  | unloadRequested (discarded : List Msg) (exited : Bool)
deriving DecidableEq

/-- The observable result of a run of the render loop. -/
structure RunResult where
  u : Userdata
  events : List IterEvents
  posted : List CoreMsg
  outcome : Outcome
deriving DecidableEq

/-- The render loop (source lines 105-169): run the body, then poll.  A
negative poll result posts an unload-module request on the control thread's
queue and waits on the inbound queue for the shutdown message, discarding
everything else; a zero poll result stops cleanly; a positive one loops. -/
def runLoop (u : Userdata) (inputs : List IterInput) (inqAfterFail : List Msg) :
    RunResult :=
  match inputs with
  | [] => ⟨u, [], [], .stillRunning⟩
  | inp :: rest =>
      let step := iterBody u inp
      if inp.pollRet < 0 then
        let w := waitForShutdown inqAfterFail
        ⟨step.1, [step.2], [CoreMsg.unloadModule], .unloadRequested w.1 w.2⟩
      else if inp.pollRet = 0 then
        ⟨step.1, [step.2], [], .finished⟩
      else
        let r := runLoop step.1 rest inqAfterFail
        ⟨r.u, step.2 :: r.events, r.posted, r.outcome⟩

/-- The render thread entry point: record the start time, then loop. -/
def thread_func (u : Userdata) (startNow : Nat) (inputs : List IterInput)
    (inqAfterFail : List Msg) : RunResult :=
  runLoop { u with timestamp := startNow } inputs inqAfterFail

/-- Number of render calls in a list of iteration events. -/
def renderCount (evs : List IterEvents) : Nat :=
  (evs.filter (fun e => e.didRender)).length

/-- Number of iterations whose writable-capacity sample was positive. -/
def posWritableCount (inputs : List IterInput) : Nat :=
  (inputs.filter (fun i => decide (0 < i.writable))).length

/-- The stream state callback (source lines 172-193): on Failed or
Terminated the stream handle is unreferenced and the slot cleared to null;
every other state only logs. -/
def stream_state_callback (u : Userdata) : Userdata :=
  match u.stream with
  | some .failed => { u with stream := none }
  | some .terminated => { u with stream := none }
  | _ => u

/-- Side actions the context state callback can perform, beyond mutating the
userdata: creating and connecting the playback stream, posting the
pass-socket (connection established) message to the render thread's queue.
The reconnect constructor exists only to state that no transition ever emits
it: the code never retries a failed connection. -/
inductive Effect
  | createStream
  | postPassSocket
  | reconnect
deriving DecidableEq

/-- The context state callback (source lines 195-262): transient states only
log; Ready creates the stream (connected for playback corked, per the
specification's stream machine) and posts the pass-socket message; Failed
and Terminated unreference the context, clear the slot to null and clear the
connected flag.  No case schedules a reconnect. -/
def context_state_callback (u : Userdata) (cst : ContextState) :
    Userdata × List Effect :=
  match cst with
  | .unconnected => (u, [])
  | .connecting => (u, [])
  | .authorizing => (u, [])
  | .settingName => (u, [])
  | .ready =>
      ({ u with stream := some .corked }, [.createStream, .postPassSocket])
  | .failed => ({ u with context := none, connected := false }, [])
  | .terminated => ({ u with context := none, connected := false }, [])

/-- Message codes reaching the sink's message handler: the latency query,
the pass-socket (connection established) message, or any other code. -/
inductive MsgCode
  | getLatency
  | passSocket
  | other (code : Nat)
deriving DecidableEq

/-- Result of the sink message handler: the possibly updated userdata, the
latency value stored through the data pointer (none when the code stores
nothing there), the integer return code, and whether the message was
delegated to the generic sink handler. -/
structure MsgResult where
  u : Userdata
  latencyOut : Option Nat
  ret : Int
  delegated : Bool
deriving DecidableEq

/-- The sink message handler (source lines 264-295).  GetLatency: when the
sink is not linked, store zero and return 0; when the stream latency query
fails (modelled as a none oracle), store zero and return 0; otherwise store
the remote latency unmodified and return 0.  PassSocket sets the connected
flag.  Everything else is delegated to pa_sink_process_msg, whose return
code is supplied as an oracle. -/
def sink_process_msg_cb (u : Userdata) (code : MsgCode)
    (remoteLatency : Option Nat) (delegateRet : Int) : MsgResult :=
  match code with
  | .getLatency =>
      if !PA_SINK_IS_LINKED u.sinkState then ⟨u, some 0, 0, false⟩
      else
        match remoteLatency with
        | none => ⟨u, some 0, 0, false⟩
        | some l => ⟨u, some l, 0, false⟩
  | .passSocket => ⟨{ u with connected := true }, none, 0, false⟩
  | .other _ => ⟨u, none, delegateRet, true⟩

/-- Outcomes of the fallible steps of pa__init, supplied as oracles:
whether module argument parsing, sample-spec and channel-map parsing,
property parsing, sink creation, context creation, context connect and
thread creation succeed, and the remote_server argument value (none when the
argument is absent). -/
structure InitEnv where
  argsValid : Bool
  specMapValid : Bool
  remoteServer : Option String
  propsValid : Bool
  sinkNewOk : Bool
  contextNewOk : Bool
  contextConnectOk : Bool
  threadNewOk : Bool
deriving DecidableEq

/-- Which resources of the module are currently allocated: the parsed module
arguments (a local of pa__init), the local proplist of pa__init, the
userdata struct (and with it m's userdata pointer), the rtpoll, the sink,
whether the sink was put (linked), the context, the thread, the stream, and
the memchunk's memory block. -/
structure ModuleState where
  ma : Bool
  proplistLocal : Bool
  userdata : Bool
  rtpoll : Bool
  sink : Bool
  sinkLinked : Bool
  context : Bool
  thread : Bool
  stream : Bool
  memblock : Bool
deriving DecidableEq

/-- No resource allocated. -/
def ModuleState.empty : ModuleState :=
  ⟨false, false, false, false, false, false, false, false, false, false⟩

/-- The module teardown (source lines 425-459): when no userdata was ever
attached to the module it returns at once; otherwise it unlinks the sink,
shuts down and frees the thread, disconnects stream and context, frees the
rtpoll, unreferences the memory block, unreferences the sink and frees the
userdata. -/
def pa__done (s : ModuleState) : ModuleState :=
  if !s.userdata then s
  else
    { s with userdata := false, rtpoll := false, sink := false,
             sinkLinked := false, context := false, thread := false,
             stream := false, memblock := false }

/-- The fail block of pa__init (source lines 413-422): free the module
arguments if parsed, free the local proplist if its pointer is non-null,
call pa__done, and return -1. -/
def initFail (s : ModuleState) : Int × ModuleState :=
  let s1 := if s.ma then { s with ma := false } else s
  let s2 := if s1.proplistLocal then { s1 with proplistLocal := false } else s1
  (-1, pa__done s2)

/-- The module activation routine pa__init (source lines 297-423), with each
fallible external call decided by the environment.  The order of
allocations and checks mirrors the source: parse arguments, parse
sample-spec and channel map, read remote_server (absent is a hard failure,
before any userdata is allocated), allocate userdata and rtpoll, parse sink
properties, create the sink, create the local proplist, create the context
(the local proplist is freed right after a successful creation), connect the
context, create the thread, then put the sink and free the arguments.  The
source frees the local proplist at line 392 without nulling the local
pointer; the model tracks the allocation, which is what the claims are
about. -/
def pa__init (env : InitEnv) : Int × ModuleState :=
  if !env.argsValid then initFail ModuleState.empty
  else
    let s1 : ModuleState := { ModuleState.empty with ma := true }
    if !env.specMapValid then initFail s1
    else if env.remoteServer = none then initFail s1
    else
      let s2 := { s1 with userdata := true, rtpoll := true }
      if !env.propsValid then initFail s2
      else if !env.sinkNewOk then initFail s2
      else
        let s3 := { s2 with sink := true, proplistLocal := true }
        if !env.contextNewOk then initFail s3
        else
          let s4 := { s3 with context := true, proplistLocal := false }
          if !env.contextConnectOk then initFail s4
          else if !env.threadNewOk then initFail s4
          else
            let s5 := { s4 with thread := true, sinkLinked := true, ma := false }
            (0, s5)

/-- A userdata value in the fully connected steady state: empty cell,
connected, stream running, sink running. -/
def sampleGood : Userdata := ⟨Memchunk.empty, true, some .running, .running, false, 0, some ()⟩

/-- A userdata value whose stream has entered the Failed state. -/
def sampleFailedStream : Userdata := ⟨Memchunk.empty, true, some .failed, .running, false, 0, some ()⟩

/-- An iteration input with 4096 writable bytes and a positive poll result. -/
def sampleWrite : IterInput := ⟨4096, 1, 4096, 0, 1⟩

/-- An iteration input whose poll returns a negative (fatal) result. -/
def sampleFailPoll : IterInput := ⟨4096, 1, 4096, 0, -1⟩

/-- An inbound queue holding two non-shutdown messages, the shutdown message
and a message behind it. -/
def sampleInq : List Msg := [Msg.other 3, Msg.other 7, Msg.shutdown, Msg.other 9]

/-- An activation environment in which every step would succeed but the
remote_server argument is absent. -/
def sampleEnv : InitEnv := ⟨true, true, none, true, true, true, true, true⟩

theorem transmitBranch_taken (u : Userdata) (inp : IterInput) :
    (transmitBranch u inp).2.branchTaken = true := by
  unfold transmitBranch
  split_ifs <;> rfl

theorem gateB_rewind (u : Userdata) :
    gateB (if u.rewindRequested then pa_sink_process_rewind u else u) = gateB u := by
  cases h : u.rewindRequested <;> simp [h, pa_sink_process_rewind, gateB]

theorem iterBody_branchTaken (u : Userdata) (inp : IterInput) :
    (iterBody u inp).2.branchTaken = gateB u := by
  unfold iterBody
  by_cases h : gateB (if u.rewindRequested then pa_sink_process_rewind u else u)
  · simp [h, transmitBranch_taken]
    rw [← gateB_rewind u]; exact h
  · simp [h, noEvents]
    rw [← gateB_rewind u]; simpa using h

theorem rewind_memchunk (u : Userdata) :
    (if u.rewindRequested then pa_sink_process_rewind u else u).memchunk = u.memchunk := by
  cases h : u.rewindRequested <;> simp [h, pa_sink_process_rewind]

theorem rewind_stream (u : Userdata) :
    (if u.rewindRequested then pa_sink_process_rewind u else u).stream = u.stream := by
  cases h : u.rewindRequested <;> simp [h, pa_sink_process_rewind]

theorem transmitBranch_eq (u : Userdata) (inp : IterInput) :
    transmitBranch u inp =
      if pa_stream_is_corked u.stream then
        ({ u with stream := u.stream.map StreamState.uncork },
         ⟨true, true, false, 0, false, none, false⟩)
      else if 0 < inp.writable then
        if u.memchunk.length ≤ 0 then
          ({ u with memchunk := Memchunk.empty },
           ⟨true, false, true, inp.writable, true, some inp.renderBlock, inp.writeRet != 0⟩)
        else
          ({ u with memchunk := Memchunk.empty },
           ⟨true, false, false, 0, true, u.memchunk.memblock, inp.writeRet != 0⟩)
      else (u, ⟨true, false, false, 0, false, none, false⟩) := by
  unfold transmitBranch
  split_ifs with h1 h2 h3 <;> simp_all [pa_memchunk_reset]

theorem iterBody_eq (u : Userdata) (inp : IterInput) :
    iterBody u inp =
      if gateB u then
        transmitBranch (if u.rewindRequested then pa_sink_process_rewind u else u) inp
      else ((if u.rewindRequested then pa_sink_process_rewind u else u), noEvents) := by
  unfold iterBody
  dsimp only
  rw [gateB_rewind]

theorem iterBody_writable_zero (u : Userdata) (inp : IterInput) (h : inp.writable = 0) :
    (iterBody u inp).2.didRender = false ∧ (iterBody u inp).2.didWrite = false := by
  rw [iterBody_eq]
  by_cases hg : gateB u = true
  · rw [transmitBranch_eq]
    simp only [hg, if_true]
    split_ifs <;> simp_all
  · simp [hg, noEvents]

theorem iterBody_didRender (u : Userdata) (inp : IterInput)
    (h : (iterBody u inp).2.didRender = true) :
    0 < inp.writable ∧ u.memchunk.length = 0 := by
  rw [iterBody_eq, transmitBranch_eq, rewind_memchunk, rewind_stream] at h
  split_ifs at h with h1 h2 h3 h4 <;> simp_all [noEvents]

theorem iterBody_didWrite (u : Userdata) (inp : IterInput)
    (h : (iterBody u inp).2.didWrite = true) :
    (iterBody u inp).1.memchunk = Memchunk.empty ∧
    (iterBody u inp).2.unrefed =
      (if (iterBody u inp).2.didRender then some inp.renderBlock
       else u.memchunk.memblock) := by
  rw [iterBody_eq, transmitBranch_eq, rewind_memchunk, rewind_stream] at *
  split_ifs at * <;> simp_all [noEvents]

theorem iterBody_writeRet (u : Userdata) (inp : IterInput) (r1 r2 : Int) :
    (iterBody u { inp with writeRet := r1 }).1 = (iterBody u { inp with writeRet := r2 }).1 ∧
    { (iterBody u { inp with writeRet := r1 }).2 with loggedWriteError := false } =
    { (iterBody u { inp with writeRet := r2 }).2 with loggedWriteError := false } := by
  rw [iterBody_eq, iterBody_eq, transmitBranch_eq, transmitBranch_eq]
  split_ifs <;> simp_all

theorem iterBody_stream_none (u : Userdata) (inp : IterInput) (h : u.stream = none) :
    (iterBody u inp).2 = noEvents ∧ (iterBody u inp).1.stream = none := by
  have hg : gateB u = false := by simp [gateB, h, streamGoodOpt]
  rw [iterBody_eq]
  simp [hg, rewind_stream, h]

theorem runLoop_cons (u : Userdata) (inp : IterInput) (rest : List IterInput)
    (inq : List Msg) :
    runLoop u (inp :: rest) inq =
      if inp.pollRet < 0 then
        ⟨(iterBody u inp).1, [(iterBody u inp).2], [CoreMsg.unloadModule],
         .unloadRequested (waitForShutdown inq).1 (waitForShutdown inq).2⟩
      else if inp.pollRet = 0 then
        ⟨(iterBody u inp).1, [(iterBody u inp).2], [], .finished⟩
      else
        ⟨(runLoop (iterBody u inp).1 rest inq).u,
         (iterBody u inp).2 :: (runLoop (iterBody u inp).1 rest inq).events,
         (runLoop (iterBody u inp).1 rest inq).posted,
         (runLoop (iterBody u inp).1 rest inq).outcome⟩ := rfl

theorem runLoop_stream_none (inputs : List IterInput) (u : Userdata) (inq : List Msg)
    (h : u.stream = none) :
    (∀ ev ∈ (runLoop u inputs inq).events, ev = noEvents) ∧
    (runLoop u inputs inq).u.stream = none := by
  induction inputs generalizing u with
  | nil => simpa [runLoop] using h
  | cons inp rest ih =>
      obtain ⟨hev, hs⟩ := iterBody_stream_none u inp h
      rw [runLoop_cons]
      split_ifs with h1 h2
      · exact ⟨by simpa using hev, hs⟩
      · exact ⟨by simpa using hev, hs⟩
      · obtain ⟨ih1, ih2⟩ := ih _ hs
        refine ⟨?_, ih2⟩
        intro ev hm
        rcases List.mem_cons.mp hm with hh | ht
        · rw [hh]; exact hev
        · exact ih1 ev ht

theorem waitForShutdown_discarded (l : List Msg) :
    (waitForShutdown l).1 = l.takeWhile (fun m => decide (m ≠ Msg.shutdown)) := by
  induction l with
  | nil => rfl
  | cons m ms ih =>
      unfold waitForShutdown
      by_cases h : m = Msg.shutdown
      · simp [h, List.takeWhile]
      · simp [h, List.takeWhile, ih]

theorem waitForShutdown_found (l : List Msg) :
    (waitForShutdown l).2 = true ↔ Msg.shutdown ∈ l := by
  induction l with
  | nil => simp [waitForShutdown]
  | cons m ms ih =>
      unfold waitForShutdown
      by_cases h : m = Msg.shutdown
      · simp [h]
      · simp [h, ih, Ne.symm h]

theorem waitForShutdown_no_shutdown (l : List Msg) :
    ∀ m ∈ (waitForShutdown l).1, m ≠ Msg.shutdown := by
  rw [waitForShutdown_discarded]
  intro m hm
  have := List.mem_takeWhile_imp hm
  simpa using this

theorem runLoop_fail (u : Userdata) (pre post : List IterInput) (inp : IterInput)
    (inq : List Msg) (hpre : ∀ x ∈ pre, 0 < x.pollRet) (hneg : inp.pollRet < 0) :
    (runLoop u (pre ++ inp :: post) inq).posted = [CoreMsg.unloadModule] ∧
    (runLoop u (pre ++ inp :: post) inq).outcome =
      .unloadRequested (waitForShutdown inq).1 (waitForShutdown inq).2 := by
  induction pre generalizing u with
  | nil =>
      rw [List.nil_append, runLoop_cons]
      simp [hneg]
  | cons x xs ih =>
      have hx : 0 < x.pollRet := hpre x (by simp)
      rw [List.cons_append, runLoop_cons]
      have h1 : ¬ x.pollRet < 0 := by omega
      have h2 : ¬ x.pollRet = 0 := by omega
      simp only [h1, h2, if_false]
      exact ih _ (fun y hy => hpre y (by simp [hy]))

theorem renderCount_cons (e : IterEvents) (l : List IterEvents) :
    renderCount (e :: l) = (if e.didRender then 1 else 0) + renderCount l := by
  simp only [renderCount, List.filter_cons]
  split_ifs <;> simp_all [Nat.add_comm]

theorem posWritableCount_cons (i : IterInput) (l : List IterInput) :
    posWritableCount (i :: l) = (if 0 < i.writable then 1 else 0) + posWritableCount l := by
  simp only [posWritableCount, List.filter_cons]
  split_ifs <;> simp_all [Nat.add_comm]

theorem runLoop_render_le (inputs : List IterInput) (u : Userdata) (inq : List Msg) :
    renderCount (runLoop u inputs inq).events ≤ posWritableCount inputs := by
  induction inputs generalizing u with
  | nil => simp [runLoop, renderCount, posWritableCount]
  | cons inp rest ih =>
      have key1 : (if (iterBody u inp).2.didRender then 1 else 0)
          ≤ (if 0 < inp.writable then 1 else 0) := by
        by_cases hr : (iterBody u inp).2.didRender = true
        · simp [hr, (iterBody_didRender u inp hr).1]
        · simp [hr]
      rw [runLoop_cons]
      split_ifs with h1 h2
      · dsimp only
        rw [show ([(iterBody u inp).2] : List IterEvents)
            = (iterBody u inp).2 :: [] from rfl, renderCount_cons, posWritableCount_cons]
        exact Nat.add_le_add key1 (Nat.zero_le _)
      · dsimp only
        rw [show ([(iterBody u inp).2] : List IterEvents)
            = (iterBody u inp).2 :: [] from rfl, renderCount_cons, posWritableCount_cons]
        exact Nat.add_le_add key1 (Nat.zero_le _)
      · dsimp only
        rw [renderCount_cons, posWritableCount_cons]
        exact Nat.add_le_add key1 (ih _)

theorem stream_state_callback_eq (u : Userdata)
    (h : u.stream = some .failed ∨ u.stream = some .terminated) :
    stream_state_callback u = { u with stream := none } := by
  rcases h with h | h <;> simp [stream_state_callback, h]







/-- Claim C1: the transmit branch of the render loop executes in an
iteration if and only if the connected flag is true, the stream's state is
good (Created, Corked or Running — and an absent stream is not good), and
the sink is in an opened state; for every other combination of flag, stream
state and sink state the branch is skipped. -/
theorem claim_C1 (u : Userdata) (inp : IterInput) :
    (iterBody u inp).2.branchTaken =
      (u.connected && streamGoodOpt u.stream && PA_SINK_IS_OPENED u.sinkState) := by
  rw [iterBody_branchTaken]; rfl

/-- Claim C2: when the writable-size query returns 0, the iteration performs
no render call and no stream write; and over any run of the loop the number
of render calls is at most the number of iterations whose writable capacity
sample was positive. -/
theorem claim_C2 (u : Userdata) (inputs : List IterInput) (inq : List Msg) :
    (∀ inp : IterInput, inp.writable = 0 →
        (iterBody u inp).2.didRender = false ∧ (iterBody u inp).2.didWrite = false) ∧
    renderCount (runLoop u inputs inq).events ≤ posWritableCount inputs :=
  ⟨fun inp h => iterBody_writable_zero u inp h, runLoop_render_le inputs u inq⟩

theorem claim_C2_wit :
    (iterBody sampleGood ⟨0, 1, 1, 0, 1⟩).2.didRender = false ∧
    (iterBody sampleGood ⟨0, 1, 1, 0, 1⟩).2.didWrite = false :=
  (claim_C2 sampleGood [] []).1 ⟨0, 1, 1, 0, 1⟩ rfl

/-- Claim C3: a render call that fills a new audio buffer cell is issued
only when the held cell is empty (length 0), so at most one cell is
outstanding and a second render is never issued while the held cell has
positive length. -/
theorem claim_C3 (u : Userdata) (inp : IterInput)
    (h : (iterBody u inp).2.didRender = true) :
    u.memchunk.length = 0 :=
  (iterBody_didRender u inp h).2

theorem claim_C3_wit :
    (iterBody sampleGood sampleWrite).2.didRender = true ∧
    sampleGood.memchunk.length = 0 :=
  ⟨by decide, claim_C3 sampleGood sampleWrite (by decide)⟩

/-- Claim C4: whenever the loop performs a stream write, the cell's memory
block reference is released (the block that was held — the freshly rendered
one or the previously held one — is unreferenced) and the cell is reset to
empty before the next iteration; and the write's return code has no effect
on the resulting state, a failed write differing only in the logged-error
event. -/
theorem claim_C4 (u : Userdata) (inp : IterInput) (r1 r2 : Int) :
    ((iterBody u inp).2.didWrite = true →
        (iterBody u inp).1.memchunk = Memchunk.empty ∧
        (iterBody u inp).2.unrefed =
          (if (iterBody u inp).2.didRender then some inp.renderBlock
           else u.memchunk.memblock)) ∧
    (iterBody u { inp with writeRet := r1 }).1 = (iterBody u { inp with writeRet := r2 }).1 ∧
    { (iterBody u { inp with writeRet := r1 }).2 with loggedWriteError := false } =
    { (iterBody u { inp with writeRet := r2 }).2 with loggedWriteError := false } :=
  ⟨iterBody_didWrite u inp, (iterBody_writeRet u inp r1 r2).1, (iterBody_writeRet u inp r1 r2).2⟩

theorem claim_C4_wit :
    (iterBody sampleGood sampleWrite).2.didWrite = true ∧
    (iterBody sampleGood sampleWrite).1.memchunk = Memchunk.empty :=
  ⟨by decide, ((claim_C4 sampleGood sampleWrite 0 (-5)).1 (by decide)).1⟩

/-- Claim C5: whenever the poller returns a negative (fatal) result, the
render worker posts exactly one unload-module request on the control-thread
queue and then waits on its own inbound queue, discarding every message
(all of them non-shutdown, exactly the prefix before the first shutdown
message) until the shutdown message arrives, exiting if and only if a
shutdown message is in the inbound stream. -/
theorem claim_C5 (u : Userdata) (pre post : List IterInput) (inp : IterInput)
    (inq : List Msg) (hpre : ∀ x ∈ pre, 0 < x.pollRet) (hneg : inp.pollRet < 0) :
    (runLoop u (pre ++ inp :: post) inq).posted = [CoreMsg.unloadModule] ∧
    ∃ discarded exited,
      (runLoop u (pre ++ inp :: post) inq).outcome =
        Outcome.unloadRequested discarded exited ∧
      discarded = inq.takeWhile (fun m => decide (m ≠ Msg.shutdown)) ∧
      (∀ m ∈ discarded, m ≠ Msg.shutdown) ∧
      (exited = true ↔ Msg.shutdown ∈ inq) := by
  obtain ⟨hp, ho⟩ := runLoop_fail u pre post inp inq hpre hneg
  exact ⟨hp, (waitForShutdown inq).1, (waitForShutdown inq).2, ho,
    waitForShutdown_discarded inq, waitForShutdown_no_shutdown inq,
    waitForShutdown_found inq⟩

theorem claim_C5_wit :
    (runLoop sampleGood [sampleFailPoll] sampleInq).posted = [CoreMsg.unloadModule] :=
  (claim_C5 sampleGood [] [] sampleFailPoll sampleInq (by simp) (by decide)).1

/-- Claim C6: after the stream enters Failed or Terminated, the state
callback clears the stream slot to none, and every subsequent render-loop
iteration observes the absent stream: it never takes the transmit branch
and never writes. -/
theorem claim_C6 (u : Userdata) (inputs : List IterInput) (inq : List Msg)
    (h : u.stream = some .failed ∨ u.stream = some .terminated) :
    (stream_state_callback u).stream = none ∧
    ((runLoop (stream_state_callback u) inputs inq).events.all
        (fun ev => !ev.didWrite && !ev.branchTaken)) = true := by
  have hc := stream_state_callback_eq u h
  have hn : (stream_state_callback u).stream = none := by rw [hc]
  refine ⟨hn, ?_⟩
  rw [List.all_eq_true]
  intro ev hm
  have he := (runLoop_stream_none inputs _ inq hn).1 ev hm
  rw [he]
  rfl

theorem claim_C6_wit :
    (stream_state_callback sampleFailedStream).stream = none ∧
    ((runLoop (stream_state_callback sampleFailedStream) [sampleWrite] []).events.all
        (fun ev => !ev.didWrite && !ev.branchTaken)) = true :=
  claim_C6 sampleFailedStream [sampleWrite] [] (Or.inl rfl)

/-- Claim C7: when the connection enters Failed or Terminated, the context
callback releases the connection handle (clearing the slot to none) and
clears the connected flag, leaving every other field unchanged and emitting
no effects; and no state transition whatsoever emits a reconnect effect. -/
theorem claim_C7 (u : Userdata) (cst : ContextState) :
    ((cst = ContextState.failed ∨ cst = ContextState.terminated) →
        context_state_callback u cst =
          ({ u with context := none, connected := false }, [])) ∧
    Effect.reconnect ∉ (context_state_callback u cst).2 := by
  constructor
  · rintro (rfl | rfl) <;> rfl
  · cases cst <;> simp [context_state_callback]

theorem claim_C7_wit :
    context_state_callback sampleGood ContextState.failed =
      ({ sampleGood with context := none, connected := false }, []) :=
  (claim_C7 sampleGood ContextState.failed).1 (Or.inl rfl)

/-- Claim C8: for a GetLatency message, if the sink is not linked or the
stream latency query fails, the handler stores exactly zero and returns
success (0); otherwise it stores the transport-reported latency unmodified
and returns success. -/
theorem claim_C8 (u : Userdata) (lat : Option Nat) (dret : Int) :
    ((PA_SINK_IS_LINKED u.sinkState = false ∨ lat = none) →
        (sink_process_msg_cb u MsgCode.getLatency lat dret).latencyOut = some 0 ∧
        (sink_process_msg_cb u MsgCode.getLatency lat dret).ret = 0) ∧
    (PA_SINK_IS_LINKED u.sinkState = true → lat ≠ none →
        (sink_process_msg_cb u MsgCode.getLatency lat dret).latencyOut = lat ∧
        (sink_process_msg_cb u MsgCode.getLatency lat dret).ret = 0) := by
  unfold sink_process_msg_cb
  cases lat with
  | none =>
      by_cases hl : PA_SINK_IS_LINKED u.sinkState = true <;> simp [hl]
  | some l =>
      by_cases hl : PA_SINK_IS_LINKED u.sinkState = true <;> simp [hl]

theorem claim_C8_wit :
    (sink_process_msg_cb sampleGood MsgCode.getLatency none 0).latencyOut = some 0 ∧
    (sink_process_msg_cb sampleGood MsgCode.getLatency (some 55) 0).latencyOut = some 55 :=
  ⟨((claim_C8 sampleGood none 0).1 (Or.inr rfl)).1,
   ((claim_C8 sampleGood (some 55) 0).2 (by decide) (by decide)).1⟩

/-- Claim C9: when the remote_server argument is absent at module
activation (with argument parsing and sample-spec parsing succeeding, the
checks that precede it), pa__init returns -1 and no resource remains
allocated: the failure path frees the module arguments and the teardown
routine finds no userdata to release. -/
theorem claim_C9 (env : InitEnv) (h1 : env.argsValid = true)
    (h2 : env.specMapValid = true) (h3 : env.remoteServer = none) :
    pa__init env = (-1, ModuleState.empty) := by
  unfold pa__init initFail pa__done
  simp [h1, h2, h3, ModuleState.empty]

theorem claim_C9_wit : pa__init sampleEnv = (-1, ModuleState.empty) :=
  claim_C9 sampleEnv rfl rfl rfl

/-- Claim C10: on Failed or Terminated the stream state callback changes
only the stream field, clearing it to none — in particular the connected
flag keeps its value — so the next render-loop iteration's gate outcome is
the gate evaluated at an absent (none) stream handle. -/
theorem claim_C10 (u : Userdata) (inp : IterInput)
    (h : u.stream = some .failed ∨ u.stream = some .terminated) :
    stream_state_callback u = { u with stream := none } ∧
    (stream_state_callback u).connected = u.connected ∧
    (iterBody (stream_state_callback u) inp).2.branchTaken =
      ((stream_state_callback u).connected && streamGoodOpt none &&
        PA_SINK_IS_OPENED (stream_state_callback u).sinkState) := by
  have hc := stream_state_callback_eq u h
  refine ⟨hc, by rw [hc], ?_⟩
  rw [iterBody_branchTaken, hc]
  rfl

theorem claim_C10_wit :
    stream_state_callback sampleFailedStream =
      { sampleFailedStream with stream := none } ∧
    (stream_state_callback sampleFailedStream).connected = sampleFailedStream.connected ∧
    (iterBody (stream_state_callback sampleFailedStream) sampleWrite).2.branchTaken =
      ((stream_state_callback sampleFailedStream).connected && streamGoodOpt none &&
        PA_SINK_IS_OPENED (stream_state_callback sampleFailedStream).sinkState) :=
  claim_C10 sampleFailedStream sampleWrite (Or.inl rfl)
